import Mathlib

/-!
Shallow embedding of the packageTracking repository (Python) for
specification checking.

Embedded sources:
- src/src/plugins/shipment_tracking_plugin.py : ShipmentTrackingPlugin with
  track_package, _call_real_api and _simulate_api_response.
- src/src/agent.py : ShipmentTrackingAgent chat-history handling
  (setup_kernel system message, chat, reset_conversation).
- src/src/config.py : Config.validate_required_config / get_missing_config
  and the startup check in agent.setup_kernel.

Python-to-Lean modelling conventions:
- Python str is Lean String; str.upper is mapped characterwise with
  Char.toUpper (faithful on the ASCII identifiers this program handles).
- Python slices s[-6:] clamp at the left end, so a shorter string is
  returned whole; Nat subtraction in List.drop gives the same clamping.
- Python dicts returned by the plugin always have one of three shapes, so
  they are embedded as an inductive Response; a live 200 body parsed from
  arbitrary JSON is covered by an extra constructor.
- os.getenv results are Option String (none = variable unset); Python
  truthiness of a string treats the empty string as false.
- Ambient process state that a method could read (datetime.now) is made an
  explicit World argument so that independence from it is a theorem, not an
  assumption.
- Python exceptions crossing a boundary are modelled by PyOutcome: a
  computation either produced a value or raised an exception carrying its
  rendered message.
-/

/-- Characterwise uppercase, the model of Python str.upper for the ASCII
tracking identifiers handled by the plugin. -/
def pyUpper (s : String) : String :=
  String.mk (s.data.map Char.toUpper)

/-- Model of Python str.startswith. -/
def pyStartsWith (s pat : String) : Bool :=
  List.isPrefixOf pat.data s.data

/-- Model of the Python slice s[-6:]: the last six characters, or the whole
string when it is shorter (negative slice indices clamp to 0). -/
def pyLastSix (s : String) : String :=
  String.mk (s.data.drop (s.data.length - 6))

/-- Python truthiness of an optional string: None and the empty string are
false. -/
def pyTruthyStr : Option String → Bool
  | none => false
  | some s => !s.isEmpty

/-- Outcome of a Python computation observed at a try/except boundary:
either a value or a raised exception carrying str(e). -/
inductive PyOutcome (α : Type) where
  | value (a : α)
  | raised (msg : String)
deriving DecidableEq

/-- Ambient process state a plugin method can observe; the only piece the
plugin ever reads is the wall clock (datetime.now().isoformat()). -/
structure World where
  now_isoformat : String

/-- Return value of get_current_date_and_time, the dict with the single key
current_date_and_time. -/
structure CurrentDateTime where
  current_date_and_time : String
deriving DecidableEq

/-- get_current_date_and_time from shipment_tracking_plugin.py: the only
plugin operation that reads the clock. -/
def get_current_date_and_time (w : World) : CurrentDateTime :=
  { current_date_and_time := w.now_isoformat }

/-- One statusUpdates entry of the simulated API payloads. -/
structure StatusUpdate where
  statusCode : String
  statusTimestamp : String
  statusLocation : String
  statusRemarks : String
deriving DecidableEq

/-- One entry of a package items list. -/
structure Item where
  itemId : String
  itemWeightDeclared : ℚ
  itemWeightActual : ℚ
  itemDescription : String
  statusUpdates : List StatusUpdate
deriving DecidableEq

/-- One entry of the packages list of a lookup response. Declared and
actual weights and values are exact decimal constants in the source; they
are carried as rationals and never computed with. -/
structure Package where
  packageKey : ℕ
  trackingId : String
  datePartition : ℕ
  serviceType : String
  customerReference : String
  originCountry : String
  originCity : String
  originFacility : String
  destinationCountry : String
  destinationCity : String
  destinationFacility : String
  senderName : String
  senderContact : String
  recipientName : String
  recipientContact : String
  dispatchDate : String
  itemCount : ℕ
  packageContents : String
  currency : String
  declaredValue : ℚ
  declaredWeight : ℚ
  actualWeight : ℚ
  items : List Item
  statusUpdates : List StatusUpdate
deriving DecidableEq

/-- A dict returned by track_package / _call_real_api /
_simulate_api_response: a packages payload, an error dict (message,
tracking_id, optional status_code), or any other JSON body a live 200
response may parse to. -/
inductive Response where
  | packages (pkgs : List Package)
  | error (message : String) (tracking_id : String) (status_code : Option ℕ)
  | otherJson (raw : String)
deriving DecidableEq

/-- The item of the hard-coded PKG123456789 fixture
(shipment_tracking_plugin.py lines 211-238). -/
def express_item : Item :=
  { itemId := "ITM987654321"
    itemWeightDeclared := 1.2
    itemWeightActual := 1.3
    itemDescription := "Tablet"
    statusUpdates :=
      [ { statusCode := "ARR"
          statusTimestamp := "2025-08-11T10:00:00"
          statusLocation := "MUC1"
          statusRemarks := "Arrived at origin facility" },
        { statusCode := "DEP"
          statusTimestamp := "2025-08-11T11:00:00"
          statusLocation := "MUC1"
          statusRemarks := "Departed from origin facility" },
        { statusCode := "TRN"
          statusTimestamp := "2025-08-11T14:00:00"
          statusLocation := "HUB1"
          statusRemarks := "In transit to destination" } ] }

/-- The hard-coded PKG123456789 package fixture
(shipment_tracking_plugin.py lines 186-255). -/
def express_fixture : Package :=
  { packageKey := 987654321
    trackingId := "PKG123456789"
    datePartition := 20250811
    serviceType := "EXPRESS"
    customerReference := "REF20250811"
    originCountry := "DE"
    originCity := "Munich"
    originFacility := "MUC1"
    destinationCountry := "FR"
    destinationCity := "Paris"
    destinationFacility := "CDG2"
    senderName := "REDACTED"
    senderContact := "REDACTED"
    recipientName := "REDACTED"
    recipientContact := "REDACTED"
    dispatchDate := "2025-08-11T09:00:00"
    itemCount := 2
    packageContents := "ELECTRONICS"
    currency := "EUR"
    declaredValue := 199.99
    declaredWeight := 2.5
    actualWeight := 2.8
    items := [express_item]
    statusUpdates :=
      [ { statusCode := "DEP"
          statusTimestamp := "2025-08-11T11:00:00"
          statusLocation := "MUC1"
          statusRemarks := "Departed from origin facility" },
        { statusCode := "TRN"
          statusTimestamp := "2025-08-11T14:00:00"
          statusLocation := "HUB1"
          statusRemarks := "In transit to destination" } ] }

/-- The item of the generic PKG fixture, with itemId derived from the last
six characters of the input id (shipment_tracking_plugin.py lines 283-304). -/
def generic_item (tracking_id : String) : Item :=
  { itemId := "ITM" ++ pyLastSix tracking_id
    itemWeightDeclared := 0.5
    itemWeightActual := 0.6
    itemDescription := "Business Documents"
    statusUpdates :=
      [ { statusCode := "ARR"
          statusTimestamp := "2025-08-11T09:00:00"
          statusLocation := "NYC1"
          statusRemarks := "Arrived at origin facility" },
        { statusCode := "DEL"
          statusTimestamp := "2025-08-11T16:00:00"
          statusLocation := "LAX1"
          statusRemarks := "Delivered successfully" } ] }

/-- The generic package fixture synthesized for any other PKG-prefixed id
(shipment_tracking_plugin.py lines 258-321): trackingId echoes the input
verbatim and customerReference appends its last six characters to REF. -/
def generic_fixture (tracking_id : String) : Package :=
  { packageKey := 123456789
    trackingId := tracking_id
    datePartition := 20250811
    serviceType := "STANDARD"
    customerReference := "REF" ++ pyLastSix tracking_id
    originCountry := "US"
    originCity := "New York"
    originFacility := "NYC1"
    destinationCountry := "US"
    destinationCity := "Los Angeles"
    destinationFacility := "LAX1"
    senderName := "REDACTED"
    senderContact := "REDACTED"
    recipientName := "REDACTED"
    recipientContact := "REDACTED"
    dispatchDate := "2025-08-11T08:00:00"
    itemCount := 1
    packageContents := "DOCUMENTS"
    currency := "USD"
    declaredValue := 50.00
    declaredWeight := 0.5
    actualWeight := 0.6
    items := [generic_item tracking_id]
    statusUpdates :=
      [ { statusCode := "ARR"
          statusTimestamp := "2025-08-11T09:00:00"
          statusLocation := "NYC1"
          statusRemarks := "Arrived at origin facility" },
        { statusCode := "DEL"
          statusTimestamp := "2025-08-11T16:00:00"
          statusLocation := "LAX1"
          statusRemarks := "Delivered successfully" } ] }

/-- ShipmentTrackingPlugin._simulate_api_response
(shipment_tracking_plugin.py lines 170-328). The World argument makes the
ambient clock explicit; the body never reads it, and from_date/to_date are
bound but unused exactly as in the source. -/
def simulate_api_response (w : World) (tracking_id : String)
    (from_date to_date : Option String) : Response :=
  if pyUpper tracking_id = "PKG123456789" then
    Response.packages [express_fixture]
  else if pyStartsWith (pyUpper tracking_id) "PKG" then
    Response.packages [generic_fixture tracking_id]
  else
    Response.error "Package not found" tracking_id (some 404)

/-- The query parameter dict built by track_package: trackingId always,
fromDate/toDate only when truthy. -/
structure Params where
  trackingId : String
  fromDate : Option String
  toDate : Option String
deriving DecidableEq

/-- A date argument survives into params only when truthy (Python
`if from_date:` treats None and the empty string as absent). -/
def truthyOptStr : Option String → Option String
  | none => none
  | some s => if s.isEmpty then none else some s

/-- Parameter construction in track_package
(shipment_tracking_plugin.py lines 78-83). -/
def build_params (tracking_id : String) (from_date to_date : Option String) :
    Params :=
  { trackingId := tracking_id
    fromDate := truthyOptStr from_date
    toDate := truthyOptStr to_date }

/-- Observable outcome of the HTTP exchange inside _call_real_api: a
response with status, parsed JSON body and body text, an
aiohttp.ClientError, or an asyncio.TimeoutError. -/
inductive HttpOutcome where
  | response (status : ℕ) (json : Response) (text : String)
  | clientError (msg : String)
  | timeoutError
deriving DecidableEq

/-- ShipmentTrackingPlugin._call_real_api
(shipment_tracking_plugin.py lines 106-168), as a function of the HTTP
outcome: 200 returns the parsed body verbatim, 404 and other statuses and
the two caught exception classes each build an error dict whose tracking_id
is params.get of trackingId. -/
def call_real_api (params : Params) (outcome : HttpOutcome) : Response :=
  match outcome with
  | HttpOutcome.response status json text =>
      if status = 200 then
        json
      else if status = 404 then
        Response.error "Package not found" params.trackingId (some 404)
      else
        Response.error
          ("API request failed with status " ++ toString status ++ ": " ++ text)
          params.trackingId (some status)
  | HttpOutcome.clientError msg =>
      Response.error ("Network error: " ++ msg) params.trackingId none
  | HttpOutcome.timeoutError =>
      Response.error "Request timeout - the API took too long to respond"
        params.trackingId none

/-- Constructor state of ShipmentTrackingPlugin (base_url, api_key,
use_simulation). -/
structure ShipmentTrackingPlugin where
  base_url : Option String
  api_key : Option String
  use_simulation : Bool
deriving DecidableEq

/-- ShipmentTrackingPlugin.track_package
(shipment_tracking_plugin.py lines 53-104). The net argument is the
outcome of awaiting _call_real_api when the live path runs: either the
HTTP-level outcome it handled itself, or an exception that escaped it
(e.g. a JSON decode failure on a 200 body). The try/except wrapper turns
any raised exception into the error dict of lines 99-102. -/
def track_package (w : World) (self : ShipmentTrackingPlugin)
    (tracking_id : String) (from_date to_date : Option String)
    (net : PyOutcome HttpOutcome) : Response :=
  let params := build_params tracking_id from_date to_date
  let attempt : PyOutcome Response :=
    if self.use_simulation then
      PyOutcome.value (simulate_api_response w tracking_id from_date to_date)
    else
      match net with
      | PyOutcome.value o => PyOutcome.value (call_real_api params o)
      | PyOutcome.raised msg => PyOutcome.raised msg
  match attempt with
  | PyOutcome.value r => r
  | PyOutcome.raised msg =>
      Response.error ("Failed to track package: " ++ msg) tracking_id none

/-- The four required environment variables read by Config
(config.py lines 16-19): none models an unset variable, some a set value
(possibly the empty string). -/
structure Env where
  AZURE_OPENAI_ENDPOINT : Option String
  AZURE_OPENAI_API_KEY : Option String
  AZURE_OPENAI_API_VERSION : Option String
  AZURE_OPENAI_CHAT_DEPLOYMENT_NAME : Option String
deriving DecidableEq

/-- Config.validate_required_config (config.py lines 30-45): all four
values are not None. -/
def validate_required_config (e : Env) : Bool :=
  e.AZURE_OPENAI_ENDPOINT.isSome && e.AZURE_OPENAI_API_KEY.isSome &&
  e.AZURE_OPENAI_API_VERSION.isSome && e.AZURE_OPENAI_CHAT_DEPLOYMENT_NAME.isSome

/-- Config.get_missing_config (config.py lines 47-66): collects the names
of the variables that are falsy, i.e. unset or set to the empty string. -/
def get_missing_config (e : Env) : List String :=
  (if pyTruthyStr e.AZURE_OPENAI_ENDPOINT then [] else ["AZURE_OPENAI_ENDPOINT"]) ++
  (if pyTruthyStr e.AZURE_OPENAI_API_KEY then [] else ["AZURE_OPENAI_API_KEY"]) ++
  (if pyTruthyStr e.AZURE_OPENAI_API_VERSION then [] else ["AZURE_OPENAI_API_VERSION"]) ++
  (if pyTruthyStr e.AZURE_OPENAI_CHAT_DEPLOYMENT_NAME then []
   else ["AZURE_OPENAI_CHAT_DEPLOYMENT_NAME"])

/-- The configuration check at the start of
ShipmentTrackingAgent.setup_kernel (agent.py lines 45-48): raise ValueError
with the joined missing list when validation fails. -/
def setup_kernel_config_check (e : Env) : Except String Unit :=
  if !validate_required_config e then
    Except.error ("Missing required configuration: "
      ++ String.intercalate ", " (get_missing_config e))
  else
    Except.ok ()

/-- The names of the required variables that are missing in the sense the
spec uses: not provided by the environment at all (os.getenv returned
None). Written from the spec wording to compare against
get_missing_config. -/
def spec_missing_env_names (e : Env) : List String :=
  (if e.AZURE_OPENAI_ENDPOINT = none then ["AZURE_OPENAI_ENDPOINT"] else []) ++
  (if e.AZURE_OPENAI_API_KEY = none then ["AZURE_OPENAI_API_KEY"] else []) ++
  (if e.AZURE_OPENAI_API_VERSION = none then ["AZURE_OPENAI_API_VERSION"] else []) ++
  (if e.AZURE_OPENAI_CHAT_DEPLOYMENT_NAME = none then
    ["AZURE_OPENAI_CHAT_DEPLOYMENT_NAME"] else [])

/-- One entry of the semantic-kernel ChatHistory: a role tag and the
message content. -/
structure ChatMessage where
  role : String
  content : String
deriving DecidableEq

/-- The system message installed by ShipmentTrackingAgent.setup_kernel
(agent.py lines 86-100), transcribed from the triple-quoted source
literal. -/
def system_message : String :=
  "\n        You are a helpful shipment tracking assistant. You can help users track their packages \n        and provide detailed information about shipment status, locations, and delivery updates.\n\n        Make sure to use the current date and time (get_current_date_and_time).\n        If the user didn\x27t provide any time information, use the most recent date within the last four weeks.\n\n        When users ask about tracking packages, use the track_package function to get the most \n        up-to-date information. Always provide clear, friendly responses and explain the status \n        in an easy-to-understand way.\n        Don\x27t say, that there is no update unless you have checked all possible sources.\n\n        If a package cannot be found, suggest that the user double-check the tracking number \n        and contact customer service if the issue persists.\n        "

/-- ChatHistory.add_system_message. -/
def add_system_message (h : List ChatMessage) (content : String) :
    List ChatMessage :=
  h ++ [{ role := "system", content := content }]

/-- ChatHistory.add_user_message. -/
def add_user_message (h : List ChatMessage) (content : String) :
    List ChatMessage :=
  h ++ [{ role := "user", content := content }]

/-- ChatHistory.add_assistant_message. -/
def add_assistant_message (h : List ChatMessage) (content : String) :
    List ChatMessage :=
  h ++ [{ role := "assistant", content := content }]

/-- ChatHistory.add_message. -/
def add_message (h : List ChatMessage) (m : ChatMessage) : List ChatMessage :=
  h ++ [m]

/-- The agent state the claims observe: the chat history owned by
ShipmentTrackingAgent. -/
structure AgentState where
  chat_history : List ChatMessage
deriving DecidableEq

/-- State after __init__ plus a successful setup_kernel (agent.py line
102): a fresh ChatHistory holding only the system message. -/
def initialAgentState : AgentState :=
  { chat_history := add_system_message [] system_message }

/-- Observable outcome of one ShipmentTrackingAgent.chat turn: the LLM
round trip either returned a message or raised an exception with the given
rendered text. -/
inductive ChatEvent where
  | success (user_message : String) (result : ChatMessage)
  | failure (user_message : String) (err : String)
deriving DecidableEq

/-- One ShipmentTrackingAgent.chat call (agent.py lines 107-152): the user
message is appended first; then either the LLM result is appended, or the
caught exception is converted to an apologetic assistant message and
appended. -/
def chatStep (s : AgentState) (e : ChatEvent) : AgentState :=
  match e with
  | ChatEvent.success u result =>
      { chat_history := add_message (add_user_message s.chat_history u) result }
  | ChatEvent.failure u err =>
      { chat_history :=
          add_assistant_message (add_user_message s.chat_history u)
            ("I\x27m sorry, I encountered an error while processing your request: "
              ++ err) }

/-- A sequence of chat turns after initialization. -/
def runChats (s : AgentState) (events : List ChatEvent) : AgentState :=
  events.foldl chatStep s

/-- ShipmentTrackingAgent.reset_conversation (agent.py lines 154-158):
keep messages[0] and rebuild the history from it alone. Indexing an empty
history would raise IndexError, modelled as none. -/
def reset_conversation (s : AgentState) : Option AgentState :=
  match s.chat_history with
  | [] => none
  | m0 :: _ => some { chat_history := add_message [] m0 }

/-- C1: In simulated mode, for every tracking id equal to PKG123456789
under case-insensitive comparison, the lookup returns a result containing
exactly one package whose serviceType is EXPRESS, whose top-level
statusUpdates list is exactly the two codes DEP then TRN, and whose items
list holds exactly one item whose statusUpdates list has exactly three
entries whose last status code is TRN. -/
theorem C1_express_lookup (w : World) (tracking_id : String)
    (from_date to_date : Option String)
    (h : pyUpper tracking_id = "PKG123456789") :
    ∃ pkg : Package,
      simulate_api_response w tracking_id from_date to_date
        = Response.packages [pkg]
      ∧ pkg.serviceType = "EXPRESS"
      ∧ pkg.statusUpdates.map StatusUpdate.statusCode = ["DEP", "TRN"]
      ∧ ∃ item : Item, pkg.items = [item]
          ∧ item.statusUpdates.length = 3
          ∧ (item.statusUpdates.map StatusUpdate.statusCode).getLast?
              = some "TRN" := by
  refine ⟨express_fixture, ?_, rfl, rfl, express_item, rfl, rfl, rfl⟩
  unfold simulate_api_response
  rw [if_pos h]

/-- Witness for C1 at the concrete lower-case input pkg123456789. -/
theorem C1_express_lookup_witness :
    ∃ pkg : Package,
      simulate_api_response ⟨"2025-08-11T12:00:00"⟩ "pkg123456789" none none
        = Response.packages [pkg]
      ∧ pkg.serviceType = "EXPRESS"
      ∧ pkg.statusUpdates.map StatusUpdate.statusCode = ["DEP", "TRN"]
      ∧ ∃ item : Item, pkg.items = [item]
          ∧ item.statusUpdates.length = 3
          ∧ (item.statusUpdates.map StatusUpdate.statusCode).getLast?
              = some "TRN" :=
  C1_express_lookup ⟨"2025-08-11T12:00:00"⟩ "pkg123456789" none none
    (by decide)

/-- C2: In simulated mode, for every tracking id whose uppercase form
starts with PKG but is not PKG123456789, the lookup returns exactly one
package with serviceType STANDARD, whose customerReference ends with the
last 6 characters of the input id, whose item id ends with the same last 6
characters, and whose single item has exactly the status codes ARR then
DEL. -/
theorem C2_generic_lookup (w : World) (tracking_id : String)
    (from_date to_date : Option String)
    (hne : pyUpper tracking_id ≠ "PKG123456789")
    (hpkg : pyStartsWith (pyUpper tracking_id) "PKG" = true) :
    ∃ pkg : Package,
      simulate_api_response w tracking_id from_date to_date
        = Response.packages [pkg]
      ∧ pkg.serviceType = "STANDARD"
      ∧ (∃ a, pkg.customerReference = a ++ pyLastSix tracking_id)
      ∧ ∃ item : Item, pkg.items = [item]
          ∧ (∃ b, item.itemId = b ++ pyLastSix tracking_id)
          ∧ item.statusUpdates.map StatusUpdate.statusCode = ["ARR", "DEL"] := by
  refine ⟨generic_fixture tracking_id, ?_, rfl, ⟨"REF", rfl⟩,
    generic_item tracking_id, rfl, ⟨"ITM", rfl⟩, rfl⟩
  unfold simulate_api_response
  rw [if_neg hne, if_pos hpkg]

/-- Witness for C2 at the concrete input PKGabcXYZ. -/
theorem C2_generic_lookup_witness :
    ∃ pkg : Package,
      simulate_api_response ⟨"2025-08-11T12:00:00"⟩ "PKGabcXYZ" none none
        = Response.packages [pkg]
      ∧ pkg.serviceType = "STANDARD"
      ∧ (∃ a, pkg.customerReference = a ++ pyLastSix "PKGabcXYZ")
      ∧ ∃ item : Item, pkg.items = [item]
          ∧ (∃ b, item.itemId = b ++ pyLastSix "PKGabcXYZ")
          ∧ item.statusUpdates.map StatusUpdate.statusCode = ["ARR", "DEL"] :=
  C2_generic_lookup ⟨"2025-08-11T12:00:00"⟩ "PKGabcXYZ" none none
    (by decide) (by decide)

/-- C3: In simulated mode, for every tracking id whose uppercase form does
not start with PKG, the lookup returns an error object with status_code
404 and the input id echoed back unchanged. -/
theorem C3_not_found (w : World) (tracking_id : String)
    (from_date to_date : Option String)
    (h : pyStartsWith (pyUpper tracking_id) "PKG" = false) :
    simulate_api_response w tracking_id from_date to_date
      = Response.error "Package not found" tracking_id (some 404) := by
  have hne : pyUpper tracking_id ≠ "PKG123456789" := by
    intro he
    rw [he] at h
    exact absurd h (by decide)
  unfold simulate_api_response
  rw [if_neg hne, if_neg (by simp [h])]

/-- Witness for C3 at the concrete input XYZ-42. -/
theorem C3_not_found_witness :
    simulate_api_response ⟨"2025-08-11T12:00:00"⟩ "XYZ-42" none none
      = Response.error "Package not found" "XYZ-42" (some 404) :=
  C3_not_found ⟨"2025-08-11T12:00:00"⟩ "XYZ-42" none none (by decide)

/-- C6: The simulated lookup is deterministic: its result does not depend
on the ambient process state (in particular not on the clock), so two
calls with identical inputs return identical output. -/
theorem C6_simulate_deterministic (w w' : World) (tracking_id : String)
    (from_date to_date : Option String) :
    simulate_api_response w tracking_id from_date to_date
      = simulate_api_response w' tracking_id from_date to_date := rfl

/-- C7: The from_date and to_date arguments are accepted but have no
influence on the simulated lookup result. -/
theorem C7_dates_no_influence (w : World) (tracking_id : String)
    (fd1 td1 fd2 td2 : Option String) :
    simulate_api_response w tracking_id fd1 td1
      = simulate_api_response w tracking_id fd2 td2 := rfl

/-- C10: A tracking id matching PKG123456789 case-insensitively but not
written exactly that way gets the canonical uppercase trackingId in the
returned package, while the generic PKG branch echoes the input id
verbatim, case preserved. -/
theorem C10_tracking_id_case (w w' : World) (id1 id2 : String)
    (fd1 td1 fd2 td2 : Option String)
    (hmatch : pyUpper id1 = "PKG123456789") (hx : id1 ≠ "PKG123456789")
    (hne : pyUpper id2 ≠ "PKG123456789")
    (hpkg : pyStartsWith (pyUpper id2) "PKG" = true) :
    (∃ pkg, simulate_api_response w id1 fd1 td1 = Response.packages [pkg]
        ∧ pkg.trackingId = "PKG123456789" ∧ pkg.trackingId ≠ id1)
    ∧ (∃ pkg, simulate_api_response w' id2 fd2 td2 = Response.packages [pkg]
        ∧ pkg.trackingId = id2) := by
  constructor
  · refine ⟨express_fixture, ?_, rfl, fun hc => hx hc.symm⟩
    unfold simulate_api_response
    rw [if_pos hmatch]
  · refine ⟨generic_fixture id2, ?_, rfl⟩
    unfold simulate_api_response
    rw [if_neg hne, if_pos hpkg]

/-- C4: track_package is a total function and converts every exception
raised inside the lookup into an error dict carrying a failure message and
the tracking id; in simulated mode it returns the simulated response, and
in live mode it returns the value produced by _call_real_api. -/
theorem C4_track_package_total (w : World) (self : ShipmentTrackingPlugin)
    (tracking_id : String) (from_date to_date : Option String)
    (net : PyOutcome HttpOutcome) :
    (self.use_simulation = true →
      track_package w self tracking_id from_date to_date net
        = simulate_api_response w tracking_id from_date to_date)
    ∧ (∀ o, self.use_simulation = false → net = PyOutcome.value o →
      track_package w self tracking_id from_date to_date net
        = call_real_api (build_params tracking_id from_date to_date) o)
    ∧ (∀ msg, self.use_simulation = false → net = PyOutcome.raised msg →
      track_package w self tracking_id from_date to_date net
        = Response.error ("Failed to track package: " ++ msg) tracking_id
            none) := by
  refine ⟨?_, ?_, ?_⟩
  · intro hsim
    simp [track_package, hsim]
  · intro o hsim hnet
    subst hnet
    simp [track_package, hsim]
  · intro msg hsim hnet
    subst hnet
    simp [track_package, hsim]

/-- Witness for C4: a raised exception in live mode at concrete inputs
becomes the error dict. -/
theorem C4_track_package_total_witness :
    track_package ⟨"t"⟩ ⟨none, none, false⟩ "PKG1" none none
      (PyOutcome.raised "boom")
      = Response.error "Failed to track package: boom" "PKG1" none :=
  (C4_track_package_total ⟨"t"⟩ ⟨none, none, false⟩ "PKG1" none none
    (PyOutcome.raised "boom")).2.2 "boom" rfl rfl

/-- C5: live-mode outcome mapping of _call_real_api: a 200 response yields
the parsed JSON body verbatim; a 404 response yields an error with
status_code 404 and message exactly Package not found; any other status n
yields an error carrying n whose message embeds the raw body text; a
network failure or timeout yields an error with a descriptive message and
no status_code. -/
theorem C5_call_real_api_outcomes (params : Params) (j : Response)
    (text : String) (n : ℕ) (msg : String)
    (h200 : n ≠ 200) (h404 : n ≠ 404) :
    call_real_api params (HttpOutcome.response 200 j text) = j
    ∧ call_real_api params (HttpOutcome.response 404 j text)
        = Response.error "Package not found" params.trackingId (some 404)
    ∧ (call_real_api params (HttpOutcome.response n j text)
        = Response.error
            ("API request failed with status " ++ toString n ++ ": " ++ text)
            params.trackingId (some n)
        ∧ ∃ a, ("API request failed with status " ++ toString n ++ ": " ++ text)
            = a ++ text)
    ∧ call_real_api params (HttpOutcome.clientError msg)
        = Response.error ("Network error: " ++ msg) params.trackingId none
    ∧ call_real_api params HttpOutcome.timeoutError
        = Response.error "Request timeout - the API took too long to respond"
            params.trackingId none := by
  refine ⟨rfl, rfl,
    ⟨?_, ⟨"API request failed with status " ++ toString n ++ ": ", rfl⟩⟩,
    rfl, rfl⟩
  simp [call_real_api, h200, h404]

/-- Witness for C5 at a concrete 500 response with body boom. -/
theorem C5_call_real_api_outcomes_witness :
    call_real_api ⟨"PKG1", none, none⟩
        (HttpOutcome.response 500 (Response.otherJson "null") "boom")
      = Response.error ("API request failed with status " ++ toString 500
          ++ ": " ++ "boom") "PKG1" (some 500) :=
  ((C5_call_real_api_outcomes ⟨"PKG1", none, none⟩
    (Response.otherJson "null") "boom" 500 "m" (by decide)
    (by decide)).2.2.1).1

/-- The two messages one chat turn appends after the existing history. -/
def chat_turn_appendix : ChatEvent → List ChatMessage
  | ChatEvent.success u result => [{ role := "user", content := u }, result]
  | ChatEvent.failure u err =>
      [{ role := "user", content := u },
       { role := "assistant",
         content :=
           "I\x27m sorry, I encountered an error while processing your request: "
             ++ err }]

/-- One chat turn only appends to the history. -/
theorem chatStep_history (s : AgentState) (e : ChatEvent) :
    (chatStep s e).chat_history = s.chat_history ++ chat_turn_appendix e := by
  cases e <;>
    simp [chatStep, add_user_message, add_message, add_assistant_message,
      chat_turn_appendix]

/-- The first history entry survives any sequence of chat turns. -/
theorem runChats_head_invariant (events : List ChatEvent) (s : AgentState)
    (m : ChatMessage) (rest : List ChatMessage)
    (h : s.chat_history = m :: rest) :
    ∃ rest', (runChats s events).chat_history = m :: rest' := by
  induction events generalizing s rest with
  | nil => exact ⟨rest, h⟩
  | cons e es ih =>
      have hstep : (chatStep s e).chat_history
          = m :: (rest ++ chat_turn_appendix e) := by
        rw [chatStep_history, h]
        simp
      exact ih (chatStep s e) (rest ++ chat_turn_appendix e) hstep

/-- C8: after any sequence of chat turns (successful or failed) following
initialization, reset_conversation leaves a chat history containing
exactly one message, the initial system directive installed at setup. -/
theorem C8_reset_conversation_keeps_directive (events : List ChatEvent) :
    reset_conversation (runChats initialAgentState events)
      = some { chat_history :=
          [{ role := "system", content := system_message }] } := by
  obtain ⟨rest', h⟩ := runChats_head_invariant events initialAgentState
    { role := "system", content := system_message } [] rfl
  unfold reset_conversation
  rw [h]
  rfl

/-- C9 (amended): startup fails iff at least one of the four required
variables is unset, and the raised message enumerates the names of all
required variables whose values are unset or empty, a superset of the
unset ones. -/
theorem C9_config_check (e : Env) :
    ((∃ msg, setup_kernel_config_check e = Except.error msg)
      ↔ spec_missing_env_names e ≠ [])
    ∧ (∀ name, name ∈ spec_missing_env_names e → name ∈ get_missing_config e)
    ∧ (∀ msg, setup_kernel_config_check e = Except.error msg →
        msg = "Missing required configuration: "
          ++ String.intercalate ", " (get_missing_config e)) := by
  obtain ⟨a, b, c, d⟩ := e
  refine ⟨?_, ?_, ?_⟩
  · rcases a with _ | a <;> rcases b with _ | b <;> rcases c with _ | c <;>
      rcases d with _ | d <;>
      simp [setup_kernel_config_check, validate_required_config,
        spec_missing_env_names]
  · intro name hn
    rcases a with _ | a <;> rcases b with _ | b <;> rcases c with _ | c <;>
      rcases d with _ | d <;>
      simp_all [spec_missing_env_names, get_missing_config, pyTruthyStr] <;>
      tauto
  · intro msg hmsg
    by_cases hv : validate_required_config ⟨a, b, c, d⟩
    · simp [setup_kernel_config_check, hv] at hmsg
    · simp [setup_kernel_config_check, hv] at hmsg
      exact hmsg.symm

/-- Witness for C9 (amended) at a concrete environment with only the
endpoint unset. -/
theorem C9_config_check_witness :
    ("Missing required configuration: AZURE_OPENAI_ENDPOINT" : String)
      = "Missing required configuration: "
        ++ String.intercalate ", "
          (get_missing_config ⟨none, some "k", some "v", some "d"⟩) :=
  (C9_config_check ⟨none, some "k", some "v", some "d"⟩).2.2
    "Missing required configuration: AZURE_OPENAI_ENDPOINT" rfl

/-- C9 counterexample: with the endpoint unset and the API key set to the
empty string, startup fails, but the raised message also names
AZURE_OPENAI_API_KEY, which was provided by the environment; the message
therefore does not enumerate exactly the missing (unset) variables. -/
theorem C9_counterexample :
    setup_kernel_config_check ⟨none, some "", some "2024-06-01", some "gpt-4o"⟩
      = Except.error
          "Missing required configuration: AZURE_OPENAI_ENDPOINT, AZURE_OPENAI_API_KEY"
    ∧ spec_missing_env_names
        ⟨none, some "", some "2024-06-01", some "gpt-4o"⟩
      = ["AZURE_OPENAI_ENDPOINT"]
    ∧ ("Missing required configuration: AZURE_OPENAI_ENDPOINT, AZURE_OPENAI_API_KEY" : String)
      ≠ "Missing required configuration: "
        ++ String.intercalate ", "
          (spec_missing_env_names
            ⟨none, some "", some "2024-06-01", some "gpt-4o"⟩) := by
  refine ⟨rfl, rfl, by decide⟩

/-- Witness for C10 at the concrete inputs pkg123456789 and pkgAbCdEf999. -/
theorem C10_tracking_id_case_witness :
    (∃ pkg, simulate_api_response ⟨"t"⟩ "pkg123456789" none none
        = Response.packages [pkg]
        ∧ pkg.trackingId = "PKG123456789" ∧ pkg.trackingId ≠ "pkg123456789")
    ∧ (∃ pkg, simulate_api_response ⟨"t"⟩ "pkgAbCdEf999" none none
        = Response.packages [pkg]
        ∧ pkg.trackingId = "pkgAbCdEf999") :=
  C10_tracking_id_case ⟨"t"⟩ ⟨"t"⟩ "pkg123456789" "pkgAbCdEf999"
    none none none none (by decide) (by decide) (by decide) (by decide)

